import Mathlib

/-!
Shallow embedding of the MCP client runtime of this repository
(src/mcp_demo/mcp_client.py, src/mcp_client.py,
src/mcp_demo/mcp_client_lightweight.py), together with theorems checking
the specification's claims about request correlation, request ids,
error handling, environment merging, reply decoding and shutdown.

Python values that cross the JSON boundary are modelled by `PyVal`;
a Python exception that escapes to the caller is modelled by the
`Except.error` side of `Except PyExn _`.  Subprocesses (`subprocess.Popen`)
are modelled by `ChildProc`, with the cached-`returncode` semantics of
`poll` / `send_signal` / `wait` (CPython `subprocess`: `send_signal` polls
first and does nothing once the process is known to have completed).
-/

/-- A Python value as produced by `json.loads` / passed to `json.dumps`. -/
inductive PyVal where
  | str : String → PyVal
  | num : Int → PyVal
  | bool : Bool → PyVal
  | none : PyVal
  | list : List PyVal → PyVal
  | dict : List (String × PyVal) → PyVal

/-- A Python exception escaping to the caller. -/
inductive PyExn where
  | runtimeError : String → PyExn
  | other : String → PyExn
deriving DecidableEq

/-- Lookup in a Python dict modelled as an association list: the binding
added last wins, as in a Python `dict` where later writes overwrite. -/
def pyLookup {α : Type} (d : List (String × α)) (k : String) : Option α :=
  d.reverse.lookup k

/-- `v[k]` on a Python value: succeeds only on a dict that has the key
(otherwise Python raises `KeyError`/`TypeError`, modelled as `none`). -/
def pySubscript (v : PyVal) (k : String) : Option PyVal :=
  match v with
  | .dict d => pyLookup d k
  | _ => Option.none

/-- `v.get(k, d)` on a Python dict value. -/
def pyGet (v : PyVal) (k : String) (d : PyVal) : PyVal :=
  match v with
  | .dict l => (pyLookup l k).getD d
  | _ => d

/-- A child process handle (`subprocess.Popen`).  `exited` is the OS-level
fact that the process has terminated; `returncode` is the handle's cached
exit status, set only when `poll`/`wait` collects the child; `reaped`
records that the zombie has been collected; `sigterms` counts SIGTERMs
delivered to the process. -/
structure ChildProc where
  exited : Bool
  exitCode : Int
  returncode : Option Int
  reaped : Bool
  sigterms : Nat
deriving DecidableEq, Repr

/-- `Popen.poll()`: non-blocking `waitpid`; collects the child and caches
its exit status if it has terminated, otherwise changes nothing. -/
def pollP (p : ChildProc) : ChildProc :=
  if p.exited && p.returncode.isNone then
    { p with returncode := some p.exitCode, reaped := true }
  else p

/-- `Popen.terminate()` = `send_signal(SIGTERM)`: polls first and does
nothing if the process has completed; otherwise delivers SIGTERM (the
demo server installs no handler, so the child terminates with -SIGTERM).
`os.kill` on an already-reaped pid would raise `ProcessLookupError`. -/
def sendSignalTerm (p : ChildProc) : Except String ChildProc :=
  let p1 := pollP p
  if p1.returncode.isSome then .ok p1
  else if p1.reaped then .error "ProcessLookupError"
  else .ok { p1 with exited := true, exitCode := -15, sigterms := p1.sigterms + 1 }

/-- `Popen.wait()`: returns at once if the exit status is already cached,
otherwise blocks until the child exits and collects it.  In `stop_server`
it only runs after `terminate`, so the child has always exited here. -/
def waitP (p : ChildProc) : ChildProc :=
  if p.returncode.isSome then p
  else if p.exited then { p with returncode := some p.exitCode, reaped := true }
  else p

namespace MCPDiagramClient

/-- State of an `MCPDiagramClient` (src/mcp_demo/mcp_client.py) together
with the observable transport state: the frames successfully written to
the child's stdin and the frames pending on the child's stdout.
`stdinClosed` makes `stdin.write` raise (broken pipe); an entry
`Option.none` in `stdoutBuf` is a line that `json.loads` rejects;
`stdoutBuf = []` is end-of-stream (`readline` returns `""`). -/
structure DiagClient where
  config_path : String
  server_config : PyVal
  server_process : Option ChildProc
  stdinClosed : Bool
  stdinWrites : List PyVal
  stdoutBuf : List (Option PyVal)

/-- The dict `{"error": msg}` that `send_request` returns on failure. -/
def errDict (msg : String) : PyVal :=
  .dict [("error", .str msg)]

/-- The request dict built in `send_request`: the id is the literal `1`. -/
def makeRequest (method : String) (params : PyVal) : PyVal :=
  .dict [("jsonrpc", .str "2.0"), ("id", .num 1),
         ("method", .str method), ("params", params)]

/-- `MCPDiagramClient.send_request`: guard on the process being alive,
write the frame (id 1), then read exactly one line from stdout and return
its parse; every exception of the body is caught and turned into an
`{"error": str(e)}` dict (exception messages are modelled by fixed
representative strings). -/
def send_request (c : DiagClient) (method : String) (params : PyVal) :
    DiagClient × PyVal :=
  match c.server_process with
  | Option.none => (c, errDict "Server not running")
  | some pr =>
    let pr1 := pollP pr
    let c1 := { c with server_process := some pr1 }
    if pr1.returncode.isSome then (c1, errDict "Server not running")
    else
      let req := makeRequest method params
      if c1.stdinClosed then (c1, errDict "Broken pipe")
      else
        let c2 := { c1 with stdinWrites := c1.stdinWrites ++ [req] }
        match c2.stdoutBuf with
        | [] => (c2, errDict "No response from server")
        | line :: rest =>
          let c3 := { c2 with stdoutBuf := rest }
          match line with
          | some v => (c3, v)
          | Option.none => (c3, errDict "JSONDecodeError")

/-- `MCPDiagramClient.stop_server`: if a process handle exists, terminate
then wait.  The handle is never cleared, so a second call re-runs both. -/
def stop_server (c : DiagClient) : Except String DiagClient :=
  match c.server_process with
  | Option.none => .ok c
  | some pr =>
    match sendSignalTerm pr with
    | .error e => .error e
    | .ok pr1 => .ok { c with server_process := some (waitP pr1) }

/-- Extract a Python list of strings; `none` if any element is not a
string (`' '.join(cmd)` / `Popen` would raise `TypeError` on it). -/
def asStrList : List PyVal → Option (List String)
  | [] => some []
  | .str s :: rest => (asStrList rest).map (s :: ·)
  | _ => Option.none

/-- What `start_server` hands to `subprocess.Popen`: the command line and
the merged environment. -/
structure SpawnCall where
  cmd : List String
  env : List (String × PyVal)

/-- `MCPDiagramClient.start_server`: builds
`cmd = [config['command']] + config['args']`, reads
`env = config.get('env', {})`, merges `{**os.environ, **env}` and spawns.
`ambient` is `os.environ`; `spawnResult` is what the OS does at `Popen`
(`.error` = `Popen` raised).  Any exception of the body is caught and
turned into the return value `false`.  Returns the new client state, the
boolean result, and the `Popen` invocation when one was made. -/
def start_server (c : DiagClient) (ambient : List (String × String))
    (spawnResult : Except String ChildProc) :
    DiagClient × Bool × Option SpawnCall :=
  match pySubscript c.server_config "command", pySubscript c.server_config "args" with
  | some (PyVal.str cmd0), some (PyVal.list argl) =>
    match asStrList argl with
    | Option.none => (c, false, Option.none)
    | some args =>
      let cmd := cmd0 :: args
      match pyGet c.server_config "env" (PyVal.dict []) with
      | PyVal.dict envd =>
        let merged := ambient.map (fun kv => (kv.1, PyVal.str kv.2)) ++ envd
        match spawnResult with
        | .error _ => (c, false, Option.none)
        | .ok child =>
          let call : SpawnCall := ⟨cmd, merged⟩
          let child1 := pollP child
          ({ c with server_process := some child1 },
           child1.returncode.isNone, some call)
      | _ => (c, false, Option.none)
  | _, _ => (c, false, Option.none)

end MCPDiagramClient

namespace TerraformMCPClient

/-- A request sent through the `mcp` client session
(src/mcp_client.py uses `call_tool`, `read_resource`, `list_tools`,
`list_resources`). -/
inductive SessReq where
  | callTool : String → PyVal → SessReq
  | readResource : String → SessReq
  | listTools : SessReq
  | listResources : SessReq

/-- The session transport as the operations observe it: the log of
requests that actually reached the server, and the scripted behaviour of
the server for successive requests — `.ok` a reply of type `α`, `.error`
an exception raised inside the `await` (its message). -/
structure Transport (α : Type) where
  log : List SessReq
  replies : List (Except String α)

/-- One round trip through the session: the request is sent (logged) and
the next scripted reply consumed; an exhausted script behaves as a closed
stream (the `mcp` library raising). -/
def sessionCall {α : Type} (tr : Transport α) (req : SessReq) :
    Transport α × Except String α :=
  match tr.replies with
  | [] => ({ tr with log := tr.log ++ [req] }, .error "connection closed")
  | r :: rest => ({ log := tr.log ++ [req], replies := rest }, r)

/-- A tool descriptor as returned by `session.list_tools()`:
`inputSchema` is `some` when `hasattr(tool, 'inputSchema')`. -/
structure ToolDesc where
  name : String
  description : String
  inputSchema : Option PyVal

/-- The exception `RuntimeError("Not connected to MCP server")` raised by
every operation's guard when `self.session` is not set. -/
def notConnectedExn : PyExn :=
  .runtimeError "Not connected to MCP server"

/-- `TerraformMCPClient.get_available_tools`: raises when not connected;
otherwise calls `session.list_tools()` — with no `try` around it, so a
transport exception propagates — and converts the descriptors to dicts,
adding `inputSchema` only when the attribute is present. -/
def get_available_tools (connected : Bool) (tr : Transport (List ToolDesc)) :
    Except PyExn PyVal × Transport (List ToolDesc) :=
  if connected = false then (.error notConnectedExn, tr)
  else
    let (tr1, resp) := sessionCall tr .listTools
    match resp with
    | .error e => (.error (.other e), tr1)
    | .ok tools =>
      (.ok (.list (tools.map (fun t =>
        PyVal.dict ([("name", .str t.name), ("description", .str t.description)] ++
          (match t.inputSchema with
           | some s => [("inputSchema", s)]
           | Option.none => []))))), tr1)

/-- `TerraformMCPClient.get_aws_best_practices`: guard, then
`read_resource("terraform://aws_best_practices")` inside `try`; a reply's
contents are the `.text` of its items; any exception of the body becomes
a `{"status": "error", ...}` envelope. -/
def get_aws_best_practices (connected : Bool) (tr : Transport (List String)) :
    Except PyExn PyVal × Transport (List String) :=
  if connected = false then (.error notConnectedExn, tr)
  else
    let (tr1, resp) := sessionCall tr (.readResource "terraform://aws_best_practices")
    match resp with
    | .error e =>
      (.ok (.dict [("status", .str "error"), ("error", .str e),
                   ("type", .str "aws_best_practices")]), tr1)
    | .ok contents =>
      match contents with
      | [] =>
        (.ok (.dict [("status", .str "success"),
                     ("content", .str "No content available"),
                     ("type", .str "aws_best_practices"),
                     ("content_length", .num 0)]), tr1)
      | t :: _ =>
        (.ok (.dict [("status", .str "success"),
                     ("content", .str t),
                     ("type", .str "aws_best_practices"),
                     ("content_length", .num t.length)]), tr1)

/-- The success envelope both tool operations build from the first
content item: `json.loads` first, fall back to `{"output": text}`. -/
def toolResultPayload (jsonLoads : String → Option PyVal) (t : String) : PyVal :=
  match jsonLoads t with
  | some v => v
  | Option.none => .dict [("output", .str t)]

/-- `TerraformMCPClient.execute_terraform_command`: guard, then
`call_tool("ExecuteTerraformCommand", {...})` inside `try`; non-empty
content is decoded via `json.loads` with a fallback to
`{"output": text}` and wrapped in a success envelope; empty content and
exceptions become error envelopes. -/
def execute_terraform_command (connected : Bool) (tr : Transport (List String))
    (jsonLoads : String → Option PyVal) (command workingDirectory : String)
    (vars : Option (List (String × PyVal))) (awsRegion : Option String) :
    Except PyExn PyVal × Transport (List String) :=
  if connected = false then (.error notConnectedExn, tr)
  else
    let args : PyVal := .dict [
      ("command", .str command),
      ("working_directory", .str workingDirectory),
      ("variables", .dict (vars.getD [])),
      ("aws_region", match awsRegion with | some r => .str r | Option.none => PyVal.none),
      ("strip_ansi", .bool true)]
    let (tr1, resp) := sessionCall tr (.callTool "ExecuteTerraformCommand" args)
    match resp with
    | .error e =>
      (.ok (.dict [("status", .str "error"), ("error", .str e),
                   ("type", .str "terraform_execution")]), tr1)
    | .ok content =>
      match content with
      | [] =>
        (.ok (.dict [("status", .str "error"),
                     ("error", .str "No response content"),
                     ("type", .str "terraform_execution")]), tr1)
      | t :: _ =>
        (.ok (.dict [("status", .str "success"),
                     ("result", toolResultPayload jsonLoads t),
                     ("type", .str "terraform_execution")]), tr1)

/-- `TerraformMCPClient.run_checkov_scan`: same shape as
`execute_terraform_command` with the `RunCheckovScan` tool and the
`checkov_scan` envelope type. -/
def run_checkov_scan (connected : Bool) (tr : Transport (List String))
    (jsonLoads : String → Option PyVal) (workingDirectory framework : String)
    (checkIds skipCheckIds : Option (List PyVal)) :
    Except PyExn PyVal × Transport (List String) :=
  if connected = false then (.error notConnectedExn, tr)
  else
    let args : PyVal := .dict [
      ("working_directory", .str workingDirectory),
      ("framework", .str framework),
      ("check_ids", .list (checkIds.getD [])),
      ("skip_check_ids", .list (skipCheckIds.getD [])),
      ("output_format", .str "json")]
    let (tr1, resp) := sessionCall tr (.callTool "RunCheckovScan" args)
    match resp with
    | .error e =>
      (.ok (.dict [("status", .str "error"), ("error", .str e),
                   ("type", .str "checkov_scan")]), tr1)
    | .ok content =>
      match content with
      | [] =>
        (.ok (.dict [("status", .str "error"),
                     ("error", .str "No response content"),
                     ("type", .str "checkov_scan")]), tr1)
      | t :: _ =>
        (.ok (.dict [("status", .str "success"),
                     ("result", toolResultPayload jsonLoads t),
                     ("type", .str "checkov_scan")]), tr1)

end TerraformMCPClient

/-- The state of the configuration file as `_load_config` encounters it:
`open` raising (absent or unreadable), `json.load` raising (malformed),
or a parsed value. -/
inductive ConfigFile where
  | absent : ConfigFile
  | unreadable : ConfigFile
  | malformed : ConfigFile
  | parsed : PyVal → ConfigFile

/-- The lookup `config['mcpServers']['aws-diagram']`; `none` when either
subscript raises (`KeyError`/`TypeError`). -/
def configLookup (v : PyVal) : Option PyVal :=
  (pySubscript v "mcpServers").bind (fun m => pySubscript m "aws-diagram")

namespace MCPDiagramClient

/-- The built-in default configuration of
`MCPDiagramClient._load_config` (src/mcp_demo/mcp_client.py). -/
def defaultConfig : PyVal :=
  .dict [("command", .str "python"),
         ("args", .list [.str "-m", .str "aws_diagram_mcp_server"]),
         ("env", .dict [("PYTHONPATH", .str ".")])]

/-- `MCPDiagramClient._load_config`: open, parse and subscript under one
`except Exception` that falls back to the built-in default. -/
def load_config (file : ConfigFile) : PyVal :=
  match file with
  | .absent => defaultConfig
  | .unreadable => defaultConfig
  | .malformed => defaultConfig
  | .parsed v => (configLookup v).getD defaultConfig

end MCPDiagramClient

namespace LightweightMCPClient

/-- The built-in default configuration of
`LightweightMCPClient._load_config` (src/mcp_demo/mcp_client_lightweight.py). -/
def defaultConfig : PyVal :=
  .dict [("command", .str "python"),
         ("args", .list [.str "-m", .str "direct_diagram_generator"]),
         ("env", .dict [("PYTHONPATH", .str ".")])]

/-- `LightweightMCPClient._load_config`: same fallback structure as the
diagram client's, with its own default `args`. -/
def load_config (file : ConfigFile) : PyVal :=
  match file with
  | .absent => defaultConfig
  | .unreadable => defaultConfig
  | .malformed => defaultConfig
  | .parsed v => (configLookup v).getD defaultConfig

end LightweightMCPClient

/-! Concrete fixtures used by the witness and counterexample theorems. -/

/-- A child process that is alive and has not been collected. -/
def procRunning : ChildProc :=
  ⟨false, 0, Option.none, false, 0⟩

/-- `procRunning` after `terminate()` + `wait()`: exited on SIGTERM,
collected, exit status cached. -/
def procTerminated : ChildProc :=
  ⟨true, -15, some (-15), true, 1⟩

/-- A well-formed reply frame carrying id `2`. -/
def replyId2 : PyVal :=
  .dict [("jsonrpc", .str "2.0"), ("id", .num 2), ("result", .str "pong")]

/-- A well-formed reply frame carrying id `1`. -/
def replyId1 : PyVal :=
  .dict [("jsonrpc", .str "2.0"), ("id", .num 1), ("result", .str "first")]

/-- A duplicate/late reply frame for id `1`. -/
def lateReply : PyVal :=
  .dict [("jsonrpc", .str "2.0"), ("id", .num 1), ("result", .str "late")]

/-- A connected diagram client whose server has one buffered reply, with
id `2`. -/
def clientBufId2 : MCPDiagramClient.DiagClient :=
  ⟨"mcp_config.json", MCPDiagramClient.defaultConfig, some procRunning,
   false, [], [some replyId2]⟩

/-- A connected diagram client with two buffered replies: the reply to
the first call, then a late duplicate for the same id. -/
def clientTwoReplies : MCPDiagramClient.DiagClient :=
  ⟨"mcp_config.json", MCPDiagramClient.defaultConfig, some procRunning,
   false, [], [some replyId1, some lateReply]⟩

/-- A connected diagram client whose stdin pipe is broken. -/
def clientBrokenPipe : MCPDiagramClient.DiagClient :=
  ⟨"mcp_config.json", MCPDiagramClient.defaultConfig, some procRunning,
   true, [], []⟩

/-- A diagram client with a running server, used for shutdown fixtures. -/
def clientBeforeStop : MCPDiagramClient.DiagClient :=
  ⟨"mcp_config.json", MCPDiagramClient.defaultConfig, some procRunning,
   false, [], []⟩

/-- `clientBeforeStop` after one `stop_server` call. -/
def clientAfterStop : MCPDiagramClient.DiagClient :=
  ⟨"mcp_config.json", MCPDiagramClient.defaultConfig, some procTerminated,
   false, [], []⟩

/-- A disconnected diagram client (no server process was started). -/
def clientNoServer : MCPDiagramClient.DiagClient :=
  ⟨"mcp_config.json", MCPDiagramClient.defaultConfig, Option.none,
   false, [], []⟩

/-- A fresh session transport with no scripted replies. -/
def emptyToolsTransport : TerraformMCPClient.Transport (List TerraformMCPClient.ToolDesc) :=
  ⟨[], []⟩

/-- An ambient process environment for the spawn fixtures. -/
def ambientEnvW : List (String × String) :=
  [("PATH", "/usr/bin"), ("PYTHONPATH", "/old")]

/-- The `Popen` invocation `start_server` makes from `clientNoServer`
under `ambientEnvW`: the default command line, and the caller's
`PYTHONPATH` overriding the ambient one. -/
def spawnCallW : MCPDiagramClient.SpawnCall :=
  ⟨["python", "-m", "aws_diagram_mcp_server"],
   ambientEnvW.map (fun kv => (kv.1, PyVal.str kv.2)) ++ [("PYTHONPATH", PyVal.str ".")]⟩

/-! Helper lemmas about association-list lookup. -/

/-- `List.lookup` over an append favours the left list. -/
theorem lookup_append {β : Type} (l₁ l₂ : List (String × β)) (k : String) :
    List.lookup k (l₁ ++ l₂)
      = match List.lookup k l₁ with
        | some v => some v
        | Option.none => List.lookup k l₂ := by
  induction l₁ with
  | nil => simp [List.lookup]
  | cons hd tl ih =>
    obtain ⟨a, b⟩ := hd
    simp only [List.cons_append, List.lookup]
    cases k == a <;> simp [ih]

/-- Python dict lookup over a merge `a ++ b` takes `b`'s binding when one
exists, else `a`'s. -/
theorem pyLookup_append {β : Type} (a b : List (String × β)) (k : String) :
    pyLookup (a ++ b) k
      = match pyLookup b k with
        | some v => some v
        | Option.none => pyLookup a k := by
  simp only [pyLookup, List.reverse_append]
  exact lookup_append b.reverse a.reverse k

/-- `List.lookup` commutes with wrapping the values in `PyVal.str`. -/
theorem lookup_map_str (l : List (String × String)) (k : String) :
    List.lookup k (l.map (fun kv => (kv.1, PyVal.str kv.2)))
      = (List.lookup k l).map PyVal.str := by
  induction l with
  | nil => rfl
  | cons hd tl ih =>
    obtain ⟨a, b⟩ := hd
    simp only [List.map, List.lookup]
    cases k == a <;> simp [ih]

/-- `pyLookup` commutes with wrapping the values in `PyVal.str`. -/
theorem pyLookup_map_str (l : List (String × String)) (k : String) :
    pyLookup (l.map (fun kv => (kv.1, PyVal.str kv.2))) k
      = (pyLookup l k).map PyVal.str := by
  unfold pyLookup
  rw [← List.map_reverse]
  exact lookup_map_str l.reverse k

/-- Claim C1, counterexample: `send_request` dispatches every request
with id `1`, but resolves with the first buffered reply even when that
reply carries id `2` — the outcome does not correspond to the reply whose
id matches the dispatched id. -/
theorem send_request_returns_mismatched_id_reply :
    pySubscript (MCPDiagramClient.makeRequest "tools/list" (PyVal.dict [])) "id"
        = some (PyVal.num 1) ∧
    (MCPDiagramClient.send_request clientBufId2 "tools/list" (PyVal.dict [])).2
        = replyId2 ∧
    pySubscript replyId2 "id" = some (PyVal.num 2) ∧
    some (PyVal.num 2) ≠ some (PyVal.num 1) := by
  refine ⟨rfl, rfl, rfl, ?_⟩
  simp

/-- Claim C1, amended: `send_request` writes its request with the
constant id `1` and resolves with the first frame read from the child's
stdout, whatever that frame is; no id matching is performed, so the
outcome matches the dispatched id only when the server happens to reply
in lockstep with id `1`. -/
theorem send_request_resolves_first_frame
    (c : MCPDiagramClient.DiagClient) (m : String) (p : PyVal)
    (pr : ChildProc) (f : PyVal) (rest : List (Option PyVal))
    (hp : c.server_process = some pr)
    (halive : (pollP pr).returncode = Option.none)
    (hpipe : c.stdinClosed = false)
    (hbuf : c.stdoutBuf = some f :: rest) :
    MCPDiagramClient.send_request c m p =
      ({ c with server_process := some (pollP pr),
                stdinWrites := c.stdinWrites ++ [MCPDiagramClient.makeRequest m p],
                stdoutBuf := rest }, f) ∧
    pySubscript (MCPDiagramClient.makeRequest m p) "id" = some (PyVal.num 1) := by
  constructor
  · unfold MCPDiagramClient.send_request
    rw [hp]
    simp [halive, hpipe, hbuf]
  · rfl

/-- Witness for the amended claim C1 at a concrete client. -/
theorem send_request_resolves_first_frame_witness :
    MCPDiagramClient.send_request clientBufId2 "tools/list" (PyVal.dict []) =
      ({ clientBufId2 with
          server_process := some (pollP procRunning),
          stdinWrites := [MCPDiagramClient.makeRequest "tools/list" (PyVal.dict [])],
          stdoutBuf := [] }, replyId2) ∧
    pySubscript (MCPDiagramClient.makeRequest "tools/list" (PyVal.dict [])) "id"
        = some (PyVal.num 1) :=
  send_request_resolves_first_frame clientBufId2 "tools/list" (PyVal.dict [])
    procRunning replyId2 [] rfl rfl rfl rfl

/-- Claim C2, counterexample: two distinct requests dispatched in one
session both carry id `1` — the id is reused, refuting session-unique,
monotonic request ids. -/
theorem request_ids_not_distinct :
    (MCPDiagramClient.send_request
        (MCPDiagramClient.send_request clientTwoReplies "initialize" (PyVal.dict [])).1
        "tools/list" (PyVal.dict [])).1.stdinWrites.map (fun r => pySubscript r "id")
      = [some (PyVal.num 1), some (PyVal.num 1)] ∧
    MCPDiagramClient.makeRequest "initialize" (PyVal.dict [])
      ≠ MCPDiagramClient.makeRequest "tools/list" (PyVal.dict []) := by
  constructor
  · rfl
  · simp [MCPDiagramClient.makeRequest]

/-- Claim C2, amended: every request `send_request` dispatches carries
the literal id `1` (the only frames it ever writes are `makeRequest`
frames, whose id is `1`), so ids are reused across the session rather
than drawn from a monotonic counter. -/
theorem request_id_constant_one :
    (∀ m p, pySubscript (MCPDiagramClient.makeRequest m p) "id" = some (PyVal.num 1)) ∧
    (∀ c m p, (MCPDiagramClient.send_request c m p).1.stdinWrites = c.stdinWrites ∨
       (MCPDiagramClient.send_request c m p).1.stdinWrites
         = c.stdinWrites ++ [MCPDiagramClient.makeRequest m p]) := by
  constructor
  · intro m p; rfl
  · intro c m p
    unfold MCPDiagramClient.send_request
    rcases hsp : c.server_process with _ | pr
    · left; rfl
    · simp only
      by_cases h1 : (pollP pr).returncode.isSome
      · simp [h1]
      · simp only [h1, if_false]
        by_cases h2 : c.stdinClosed
        · simp [h2]
        · simp only [h2, if_false]
          rcases hbuf : c.stdoutBuf with _ | ⟨line, rest⟩
          · right; simp [hbuf]
          · rcases line with _ | v <;> right <;> simp [hbuf]

/-- Claim C3, counterexample: `TerraformMCPClient.get_available_tools`
called while not connected raises `RuntimeError("Not connected to MCP
server")` to the caller instead of returning an outcome envelope — a
not-connected exception escapes uncaught. -/
theorem get_available_tools_raises_when_not_connected :
    TerraformMCPClient.get_available_tools false emptyToolsTransport
      = (.error TerraformMCPClient.notConnectedExn, emptyToolsTransport) ∧
    TerraformMCPClient.notConnectedExn
      = .runtimeError "Not connected to MCP server" :=
  ⟨rfl, rfl⟩

/-- Claim C3, amended: transport and decoding exceptions inside an
operation's body are caught — `send_request` turns a broken-pipe write or
an undecodable reply line into an `{"error": ...}` dict, and the
connected terraform tool/resource operations return an envelope for every
scripted transport behaviour — but the not-connected guard of
`TerraformMCPClient` raises `RuntimeError` to the caller, and
`get_available_tools` (no `try` around `list_tools`) propagates transport
exceptions uncaught. -/
theorem error_containment_amended :
    (∀ c m p (pr : ChildProc), c.server_process = some pr →
        (pollP pr).returncode = Option.none → c.stdinClosed = true →
        (MCPDiagramClient.send_request c m p).2
          = MCPDiagramClient.errDict "Broken pipe") ∧
    (∀ c m p (pr : ChildProc) rest, c.server_process = some pr →
        (pollP pr).returncode = Option.none → c.stdinClosed = false →
        c.stdoutBuf = Option.none :: rest →
        (MCPDiagramClient.send_request c m p).2
          = MCPDiagramClient.errDict "JSONDecodeError") ∧
    (∀ tr jl cmd wd vars reg, ∃ env,
        (TerraformMCPClient.execute_terraform_command true tr jl cmd wd vars reg).1
          = .ok env) ∧
    (∀ tr, ∃ env, (TerraformMCPClient.get_aws_best_practices true tr).1 = .ok env) ∧
    (∀ tr : TerraformMCPClient.Transport (List TerraformMCPClient.ToolDesc),
        (TerraformMCPClient.get_available_tools false tr).1
          = .error TerraformMCPClient.notConnectedExn) ∧
    (∀ tr e rest, tr.replies = .error e :: rest →
        (TerraformMCPClient.get_available_tools true tr).1 = .error (.other e)) := by
  refine ⟨?_, ?_, ?_, ?_, ?_, ?_⟩
  · intro c m p pr hp halive hpipe
    unfold MCPDiagramClient.send_request
    rw [hp]
    simp [halive, hpipe]
  · intro c m p pr rest hp halive hpipe hbuf
    unfold MCPDiagramClient.send_request
    rw [hp]
    simp [halive, hpipe, hbuf]
  · intro tr jl cmd wd vars reg
    unfold TerraformMCPClient.execute_terraform_command TerraformMCPClient.sessionCall
    rcases hr : tr.replies with _ | ⟨r, rest⟩
    · simp [hr]
    · rcases r with e | content
      · simp [hr]
      · rcases content with _ | ⟨t, ts⟩ <;> simp [hr]
  · intro tr
    unfold TerraformMCPClient.get_aws_best_practices TerraformMCPClient.sessionCall
    rcases hr : tr.replies with _ | ⟨r, rest⟩
    · simp [hr]
    · rcases r with e | contents
      · simp [hr]
      · rcases contents with _ | ⟨t, ts⟩ <;> simp [hr]
  · intro tr; rfl
  · intro tr e rest hr
    unfold TerraformMCPClient.get_available_tools TerraformMCPClient.sessionCall
    simp [hr]

/-- Witness for the amended claim C3 at concrete inputs: a broken pipe is
caught into an error dict; a connected tool call over a transport that
raises still yields an `.ok` envelope; the not-connected guard raises. -/
theorem error_containment_amended_witness :
    (MCPDiagramClient.send_request clientBrokenPipe "tools/list" (PyVal.dict [])).2
      = MCPDiagramClient.errDict "Broken pipe" ∧
    (∃ env, (TerraformMCPClient.execute_terraform_command true
        ⟨[], [Except.error "pipe closed"]⟩ (fun _ => Option.none)
        "plan" "/tmp" Option.none Option.none).1 = .ok env) ∧
    (TerraformMCPClient.get_available_tools true
        ⟨[], [Except.error "pipe closed"]⟩).1 = .error (.other "pipe closed") :=
  ⟨error_containment_amended.1 clientBrokenPipe "tools/list" (PyVal.dict [])
      procRunning rfl rfl rfl,
   error_containment_amended.2.2.1 ⟨[], [Except.error "pipe closed"]⟩
      (fun _ => Option.none) "plan" "/tmp" Option.none Option.none,
   error_containment_amended.2.2.2.2.2 ⟨[], [Except.error "pipe closed"]⟩
      "pipe closed" [] rfl⟩

/-- Claim C4, counterexample: an extra (late, duplicate) reply for an
already-answered id is not discarded: it stays buffered and resolves the
next dispatched call.  The first call gets the first reply; the second,
unrelated call resolves with the late duplicate for the first call's
id. -/
theorem late_reply_resolves_future_call :
    (MCPDiagramClient.send_request clientTwoReplies "initialize" (PyVal.dict [])).2
      = replyId1 ∧
    (MCPDiagramClient.send_request
        (MCPDiagramClient.send_request clientTwoReplies "initialize" (PyVal.dict [])).1
        "tools/list" (PyVal.dict [])).2
      = lateReply ∧
    pySubscript lateReply "id" = some (PyVal.num 1) ∧
    lateReply ≠ replyId1 := by
  refine ⟨rfl, rfl, rfl, ?_⟩
  simp [lateReply, replyId1]

/-- Claim C4, amended: the client has no per-call timeout — `send_request`
takes no deadline and blocks on `readline` until a line or end-of-stream —
and a reply left buffered on the child's stdout is never discarded: the
next dispatched call resolves with it, whatever id it carries. -/
theorem buffered_reply_resolves_next_call
    (c : MCPDiagramClient.DiagClient) (m : String) (p : PyVal)
    (pr : ChildProc) (v : PyVal) (rest : List (Option PyVal))
    (hp : c.server_process = some pr)
    (halive : (pollP pr).returncode = Option.none)
    (hpipe : c.stdinClosed = false)
    (hbuf : c.stdoutBuf = some v :: rest) :
    (MCPDiagramClient.send_request c m p).2 = v ∧
    (∀ n : Int, pySubscript v "id" = some (PyVal.num n) →
       pySubscript (MCPDiagramClient.send_request c m p).2 "id"
         = some (PyVal.num n)) := by
  have hmain : (MCPDiagramClient.send_request c m p).2 = v := by
    unfold MCPDiagramClient.send_request
    rw [hp]
    simp [halive, hpipe, hbuf]
  exact ⟨hmain, fun n hn => by rw [hmain]; exact hn⟩

/-- Witness for the amended claim C4: the buffered late duplicate (id 1)
resolves a subsequent, unrelated call. -/
theorem buffered_reply_resolves_next_call_witness :
    (MCPDiagramClient.send_request
        ⟨"mcp_config.json", MCPDiagramClient.defaultConfig, some procRunning,
         false, [], [some lateReply]⟩ "tools/list" (PyVal.dict [])).2 = lateReply ∧
    (∀ n : Int, pySubscript lateReply "id" = some (PyVal.num n) →
       pySubscript (MCPDiagramClient.send_request
          ⟨"mcp_config.json", MCPDiagramClient.defaultConfig, some procRunning,
           false, [], [some lateReply]⟩ "tools/list" (PyVal.dict [])).2 "id"
         = some (PyVal.num n)) :=
  buffered_reply_resolves_next_call
    ⟨"mcp_config.json", MCPDiagramClient.defaultConfig, some procRunning,
     false, [], [some lateReply]⟩ "tools/list" (PyVal.dict [])
    procRunning lateReply [] rfl rfl rfl rfl

/-- Claim C5: calling an operation while not connected fails with the
not-connected failure of the respective client and leaves the transport
untouched: `send_request` writes nothing, reads nothing and signals
nothing (at most the cached `returncode` of the handle is refreshed by
`poll`), and the terraform operations return with the transport log and
scripted replies unchanged. -/
theorem not_connected_guard_leaves_transport_untouched :
    (∀ c m p, c.server_process = Option.none →
        MCPDiagramClient.send_request c m p
          = (c, MCPDiagramClient.errDict "Server not running")) ∧
    (∀ c m p (pr : ChildProc), c.server_process = some pr →
        (pollP pr).returncode.isSome = true →
        MCPDiagramClient.send_request c m p
          = ({ c with server_process := some (pollP pr) },
             MCPDiagramClient.errDict "Server not running") ∧
        (pollP pr).sigterms = pr.sigterms ∧ (pollP pr).exited = pr.exited) ∧
    (∀ tr jl cmd wd vars reg,
        TerraformMCPClient.execute_terraform_command false tr jl cmd wd vars reg
          = (.error TerraformMCPClient.notConnectedExn, tr)) ∧
    (∀ tr, TerraformMCPClient.get_available_tools false tr
          = (.error TerraformMCPClient.notConnectedExn, tr)) := by
  refine ⟨?_, ?_, ?_, ?_⟩
  · intro c m p hp
    unfold MCPDiagramClient.send_request
    rw [hp]
  · intro c m p pr hp hdead
    refine ⟨?_, ?_, ?_⟩
    · unfold MCPDiagramClient.send_request
      rw [hp]
      simp [hdead]
    · unfold pollP; split <;> rfl
    · unfold pollP; split <;> rfl
  · intro tr jl cmd wd vars reg; rfl
  · intro tr; rfl

/-- Witness for claim C5 at concrete inputs. -/
theorem not_connected_guard_leaves_transport_untouched_witness :
    MCPDiagramClient.send_request clientNoServer "tools/list" (PyVal.dict [])
      = (clientNoServer, MCPDiagramClient.errDict "Server not running") ∧
    TerraformMCPClient.get_available_tools false emptyToolsTransport
      = (.error TerraformMCPClient.notConnectedExn, emptyToolsTransport) :=
  ⟨not_connected_guard_leaves_transport_untouched.1 clientNoServer "tools/list"
      (PyVal.dict []) rfl,
   not_connected_guard_leaves_transport_untouched.2.2.2 emptyToolsTransport⟩

/-- Claim C6: whenever `start_server` reaches `Popen`, the subprocess
environment it passes is `{**os.environ, **env}`: a key absent from the
caller-provided `env` dict resolves to the ambient value, and a key
present in `env` resolves to the caller's value, also on collision. -/
theorem start_server_env_overlay
    (c : MCPDiagramClient.DiagClient) (ambient : List (String × String))
    (spawn : Except String ChildProc) (st : MCPDiagramClient.DiagClient)
    (ok : Bool) (call : MCPDiagramClient.SpawnCall) (envd : List (String × PyVal))
    (hrun : MCPDiagramClient.start_server c ambient spawn = (st, ok, some call))
    (henv : pyGet c.server_config "env" (PyVal.dict []) = PyVal.dict envd)
    (k : String) :
    (pyLookup envd k = Option.none →
       pyLookup call.env k = (pyLookup ambient k).map PyVal.str) ∧
    (∀ v, pyLookup envd k = some v → pyLookup call.env k = some v) := by
  have hcall : call.env = ambient.map (fun kv => (kv.1, PyVal.str kv.2)) ++ envd := by
    unfold MCPDiagramClient.start_server at hrun
    split at hrun
    case h_2 => simp at hrun
    case h_1 cmd0 argl heqc heqa =>
      split at hrun
      case h_1 => simp at hrun
      case h_2 args hargs =>
        split at hrun
        case h_2 => simp at hrun
        case h_1 envd' henv' =>
          rw [henv'] at henv
          cases henv
          split at hrun
          case h_1 => simp at hrun
          case h_2 child hspawn =>
            have := congrArg (fun t => t.2.2) hrun
            simp at this
            rw [← this]
  rw [hcall, pyLookup_append]
  constructor
  · intro hnone
    rw [hnone]
    exact pyLookup_map_str ambient k
  · intro v hv
    rw [hv]

/-- Witness for claim C6: with the default configuration
(`env = {"PYTHONPATH": "."}`) over an ambient environment that also sets
`PYTHONPATH`, `PATH` keeps its ambient value and `PYTHONPATH` takes the
caller's. -/
theorem start_server_env_overlay_witness :
    pyLookup spawnCallW.env "PATH" = some (PyVal.str "/usr/bin") ∧
    pyLookup spawnCallW.env "PYTHONPATH" = some (PyVal.str ".") :=
  ⟨((start_server_env_overlay clientNoServer ambientEnvW (.ok procRunning)
      _ _ spawnCallW [("PYTHONPATH", PyVal.str ".")] rfl rfl "PATH").1 rfl).trans rfl,
   (start_server_env_overlay clientNoServer ambientEnvW (.ok procRunning)
      _ _ spawnCallW [("PYTHONPATH", PyVal.str ".")] rfl rfl "PYTHONPATH").2
     (PyVal.str ".") rfl⟩

/-- Claim C7: for a tool-invocation reply with non-empty content, both
`execute_terraform_command` and `run_checkov_scan` build the result by
first attempting `json.loads` on the first content item and falling back
to `{"output": text}`, and return a `"status": "success"` envelope in
both cases — for every decoder behaviour, so a decoding failure is never
surfaced as a tool failure. -/
theorem tool_reply_decode_fallback
    (jl : String → Option PyVal) (t : String) (ts : List String) :
    (∀ tr rest cmd wd vars reg,
        tr.replies = .ok (t :: ts) :: rest →
        (TerraformMCPClient.execute_terraform_command true tr jl cmd wd vars reg).1
          = .ok (.dict [("status", .str "success"),
                        ("result", TerraformMCPClient.toolResultPayload jl t),
                        ("type", .str "terraform_execution")])) ∧
    (∀ tr rest wd fw ci si,
        tr.replies = .ok (t :: ts) :: rest →
        (TerraformMCPClient.run_checkov_scan true tr jl wd fw ci si).1
          = .ok (.dict [("status", .str "success"),
                        ("result", TerraformMCPClient.toolResultPayload jl t),
                        ("type", .str "checkov_scan")])) ∧
    (∀ v, jl t = some v → TerraformMCPClient.toolResultPayload jl t = v) ∧
    (jl t = Option.none →
        TerraformMCPClient.toolResultPayload jl t
          = .dict [("output", .str t)]) := by
  refine ⟨?_, ?_, ?_, ?_⟩
  · intro tr rest cmd wd vars reg hr
    unfold TerraformMCPClient.execute_terraform_command TerraformMCPClient.sessionCall
    simp [hr]
  · intro tr rest wd fw ci si hr
    unfold TerraformMCPClient.run_checkov_scan TerraformMCPClient.sessionCall
    simp [hr]
  · intro v hv
    unfold TerraformMCPClient.toolResultPayload
    rw [hv]
  · intro hv
    unfold TerraformMCPClient.toolResultPayload
    rw [hv]

/-- Witness for claim C7: a reply whose text the decoder rejects still
yields a success envelope wrapping the opaque text. -/
theorem tool_reply_decode_fallback_witness :
    (TerraformMCPClient.execute_terraform_command true
        ⟨[], [Except.ok ["plain text"]]⟩ (fun _ => Option.none)
        "plan" "/tmp" Option.none Option.none).1
      = .ok (.dict [("status", .str "success"),
                    ("result", .dict [("output", .str "plain text")]),
                    ("type", .str "terraform_execution")]) :=
  (tool_reply_decode_fallback (fun _ => Option.none) "plain text" []).1
    ⟨[], [Except.ok ["plain text"]]⟩ [] "plan" "/tmp" Option.none Option.none rfl

/-- Claim C8: a `read_resource` reply with empty contents produces a
success envelope with `content_length` zero, whose `status` field is
`"success"` and hence distinguishable from the `"error"` envelopes the
same operation returns on failure. -/
theorem empty_resource_success_outcome
    (tr : TerraformMCPClient.Transport (List String))
    (rest : List (Except String (List String)))
    (h : tr.replies = .ok [] :: rest) :
    (TerraformMCPClient.get_aws_best_practices true tr).1
      = .ok (.dict [("status", .str "success"),
                    ("content", .str "No content available"),
                    ("type", .str "aws_best_practices"),
                    ("content_length", .num 0)]) ∧
    pySubscript (.dict [("status", .str "success"),
                        ("content", .str "No content available"),
                        ("type", .str "aws_best_practices"),
                        ("content_length", .num 0)]) "status"
      = some (.str "success") ∧
    PyVal.str "success" ≠ PyVal.str "error" := by
  refine ⟨?_, rfl, ?_⟩
  · unfold TerraformMCPClient.get_aws_best_practices TerraformMCPClient.sessionCall
    simp [h]
  · simp

/-- Witness for claim C8 at a concrete transport. -/
theorem empty_resource_success_outcome_witness :
    (TerraformMCPClient.get_aws_best_practices true ⟨[], [Except.ok []]⟩).1
      = .ok (.dict [("status", .str "success"),
                    ("content", .str "No content available"),
                    ("type", .str "aws_best_practices"),
                    ("content_length", .num 0)]) :=
  (empty_resource_success_outcome ⟨[], [Except.ok []]⟩ [] rfl).1

/-- After a successful `terminate()` followed by `wait()`, the handle's
exit status is cached. -/
theorem waitP_after_signal_returncode {p q : ChildProc}
    (h : sendSignalTerm p = .ok q) : (waitP q).returncode.isSome = true := by
  unfold sendSignalTerm at h
  by_cases h1 : (pollP p).returncode.isSome = true
  · simp only [h1, if_true] at h
    cases h
    unfold waitP
    simp [h1]
  · simp only [h1, if_false] at h
    by_cases h2 : (pollP p).reaped = true
    · simp [h2] at h
    · simp only [h2, if_false] at h
      cases h
      unfold waitP
      simp only [Bool.not_eq_true] at h1
      simp [Option.isNone_iff_eq_none.mp (by simp [Option.not_isSome_iff_eq_none] at h1 ⊢; exact h1)]

/-- `terminate()` on a handle whose exit status is cached polls, sees the
process completed, and does nothing. -/
theorem sendSignalTerm_noop {p : ChildProc} (h : p.returncode.isSome = true) :
    sendSignalTerm p = .ok p := by
  have hpoll : pollP p = p := by
    unfold pollP
    have : p.returncode.isNone = false := by
      cases hrc : p.returncode <;> simp_all
    simp [this]
  unfold sendSignalTerm
  rw [hpoll, if_pos h]

/-- `wait()` on a handle whose exit status is cached returns at once. -/
theorem waitP_noop {p : ChildProc} (h : p.returncode.isSome = true) :
    waitP p = p := by
  unfold waitP
  rw [if_pos h]

/-- Claim C9: `stop_server` is idempotent and exception-free on repeat:
whenever a call returns normally (first terminating, reaping and caching
the exit status of the child), calling it again is a no-op that returns
the same state and never raises — `terminate` polls, finds the cached
exit status and delivers no signal, and `wait` returns at once. -/
theorem stop_server_idempotent (c c' : MCPDiagramClient.DiagClient)
    (h : MCPDiagramClient.stop_server c = .ok c') :
    MCPDiagramClient.stop_server c' = .ok c' := by
  obtain ⟨cp, sc, sp, pipe, w, b⟩ := c
  rcases sp with _ | pr
  · unfold MCPDiagramClient.stop_server at h
    simp only [Except.ok.injEq] at h
    rw [← h]
    rfl
  · have hstep : MCPDiagramClient.stop_server ⟨cp, sc, some pr, pipe, w, b⟩ =
        match sendSignalTerm pr with
        | .error e => .error e
        | .ok pr1 => .ok ⟨cp, sc, some (waitP pr1), pipe, w, b⟩ := rfl
    rw [hstep] at h
    rcases hsig : sendSignalTerm pr with e | pr1 <;> rw [hsig] at h
    · exact Except.noConfusion h
    · simp only [Except.ok.injEq] at h
      have hrc : (waitP pr1).returncode.isSome = true :=
        waitP_after_signal_returncode hsig
      rw [← h]
      unfold MCPDiagramClient.stop_server
      simp only [sendSignalTerm_noop hrc, waitP_noop hrc]

/-- Witness for claim C9: a concrete running client, stopped once, then
stopped again with no state change and no exception. -/
theorem stop_server_idempotent_witness :
    MCPDiagramClient.stop_server clientBeforeStop = .ok clientAfterStop ∧
    MCPDiagramClient.stop_server clientAfterStop = .ok clientAfterStop :=
  ⟨rfl, stop_server_idempotent clientBeforeStop clientAfterStop rfl⟩

/-- Claim C10: `_load_config` is total — an absent, unreadable or
malformed configuration file, or one missing the
`mcpServers`/`aws-diagram` keys, yields the built-in default
configuration instead of an exception, in both client classes — so
constructing a client never fails on a bad configuration file. -/
theorem load_config_total_default :
    (MCPDiagramClient.load_config .absent = MCPDiagramClient.defaultConfig) ∧
    (MCPDiagramClient.load_config .unreadable = MCPDiagramClient.defaultConfig) ∧
    (MCPDiagramClient.load_config .malformed = MCPDiagramClient.defaultConfig) ∧
    (∀ v, configLookup v = Option.none →
        MCPDiagramClient.load_config (.parsed v) = MCPDiagramClient.defaultConfig) ∧
    (LightweightMCPClient.load_config .absent = LightweightMCPClient.defaultConfig) ∧
    (LightweightMCPClient.load_config .unreadable = LightweightMCPClient.defaultConfig) ∧
    (LightweightMCPClient.load_config .malformed = LightweightMCPClient.defaultConfig) ∧
    (∀ v, configLookup v = Option.none →
        LightweightMCPClient.load_config (.parsed v)
          = LightweightMCPClient.defaultConfig) := by
  refine ⟨rfl, rfl, rfl, ?_, rfl, rfl, rfl, ?_⟩
  · intro v hv
    simp [MCPDiagramClient.load_config, hv]
  · intro v hv
    simp [LightweightMCPClient.load_config, hv]

/-- Witness for claim C10: a parsed configuration that has `mcpServers`
but no `aws-diagram` entry falls back to the default in both classes. -/
theorem load_config_total_default_witness :
    MCPDiagramClient.load_config (.parsed (.dict [("mcpServers", .dict [])]))
      = MCPDiagramClient.defaultConfig ∧
    LightweightMCPClient.load_config (.parsed (.dict [("mcpServers", .dict [])]))
      = LightweightMCPClient.defaultConfig :=
  ⟨load_config_total_default.2.2.2.1 (.dict [("mcpServers", .dict [])]) rfl,
   load_config_total_default.2.2.2.2.2.2.2 (.dict [("mcpServers", .dict [])]) rfl⟩
